import Mathlib

/-!
# Classic-scheme handlers of the dnote server

A shallow embedding of `pkg/server/handlers/classic.go`: the six handlers
`classicMigrate`, `classicPresignin`, `classicSignin`, `classicGetMe`,
`classicSetPassword` and `classicGetNotes`, written as functions from a
store and a request to the recorded response, the resulting store, the
server log and the list of store accesses made.

The collaborators the handlers call but which live in other packages are
either parameters (`Deps`) or small models whose doc comment says so.
-/

namespace Handlers

/-! ## Data model -/

/-- The `database.User` fields the handlers read. -/
structure User where
  ID : Int
  APIKey : String
  Name : String
  Cloud : Bool
  Encrypted : Bool
deriving DecidableEq

/-- The `database.Account` row: the columns the handlers read or write.
`Email` and `Password` are nullable columns (`none` is SQL NULL). -/
structure Account where
  ID : Int
  UserID : Int
  AccountID : String
  Nickname : String
  Provider : String
  Email : Option String
  EmailVerified : Bool
  Password : Option String
  ClientKDFIteration : Int
  ServerKDFIteration : Int
  AuthKeyHash : String
  Salt : String
  CipherKeyEnc : String
deriving DecidableEq

/-- A session record; times are Unix seconds. -/
structure Session where
  Key : String
  UserID : Int
  ExpiresAt : Int
deriving DecidableEq

/-- The `database.Note` columns the note query filters on, and the content. -/
structure Note where
  ID : Int
  UserID : Int
  Encrypted : Bool
  Body : String
deriving DecidableEq

/-- The persistent store behind `a.DB`: the three tables the handlers touch. -/
structure DB where
  accounts : List Account
  sessions : List Session
  notes : List Note
deriving DecidableEq

/-! ## Requests and responses -/

/-- JSON payload of the sign-in request. -/
structure classicSigninPayload where
  Email : String
  AuthKey : String
deriving DecidableEq

/-- JSON payload of the set-password request. -/
structure classicSetPasswordPayload where
  Password : String
deriving DecidableEq

/-- What a handler reads from `r`: the user placed in the request context
under `helpers.KeyUser` (if any), the `email` query parameter (empty when
absent) and the outcome of JSON-decoding the body into the payload type
of the handler. -/
structure Request (β : Type) where
  user : Option User
  queryEmail : String
  body : Except String β

/-- Response of the presignin handler. -/
structure PresigninResponse where
  Iteration : Int
deriving DecidableEq

/-- The anonymous response struct of `classicSignin`. -/
structure SigninResponse where
  Key : String
  ExpiresAt : Int
  CipherKeyEnc : String
deriving DecidableEq

/-- The `classicSession` struct declared inside `classicGetMe`. -/
structure classicSession where
  ID : Int
  GithubName : String
  GithubAccountID : String
  APIKey : String
  Name : String
  Email : String
  EmailVerified : Bool
  Provider : String
  Cloud : Bool
  Legacy : Bool
  Encrypted : Bool
  CipherKeyEnc : String
deriving DecidableEq

/-- What is written to the response body. -/
inductive Payload where
  | empty
  | text (s : String)
  | presignin (r : PresigninResponse)
  | signin (r : SigninResponse)
  | me (user : classicSession)
  | notes (presented : String)
deriving DecidableEq

/-- A cookie set on the response. -/
structure Cookie where
  Name : String
  Value : String
  Expires : Int
deriving DecidableEq

/-- The recorded response. A handler that returns without writing leaves
the status at 200 and the body empty, as `net/http` does. -/
structure Response where
  status : Nat
  header : List (String × String)
  cookies : List Cookie
  body : Payload
deriving DecidableEq

/-- A line of the server log. -/
structure LogEntry where
  msg : String
  err : Option String
  accountID : Option Int
deriving DecidableEq

/-- A store access made by a handler. -/
inductive Op where
  | findAccountByUser (userID : Int)
  | findAccountByEmail (email : String)
  | updateAccount (id : Int)
  | createSession (userID : Int)
  | findNotes (userID : Int)
deriving DecidableEq

/-- Everything a handler run produces. -/
structure State where
  w : Response
  db : DB
  log : List LogEntry
  ops : List Op
deriving DecidableEq

/-! ## Collaborators -/

/-- Functions and constants of other packages that the handlers use and
whose code is not part of this file: `crypt.HashAuthKey`, the
`ErrLoginFailure` error message, `bcrypt.GenerateFromPassword` (with the
randomness it draws made explicit) and `bcrypt.DefaultCost`, the text
`HandleError` shows to the client for a status code, the lifetime of a
session, and `presenters.PresentNotes`. -/
structure Deps where
  HashAuthKey : String → String → Int → String
  ErrLoginFailure : String
  GenerateFromPassword : String → Int → Nat → Except String String
  DefaultCost : Int
  errorText : Nat → String
  sessionLifetime : Int
  PresentNotes : List Note → String

/-- Storage failures injected into a run: the error (if any) returned by
the lookup, by the update and by the creation of a session record. -/
structure Faults where
  find : Option String
  update : Option String
  create : Option String
deriving DecidableEq

/-- The environment of one request: storage failures, the clock, and the
randomness drawn for the session key and for the bcrypt salt. -/
structure Env where
  faults : Faults
  now : Int
  sessionKey : String
  entropy : Nat
deriving DecidableEq

abbrev StatusOK : Nat := 200
abbrev StatusBadRequest : Nat := 400
abbrev StatusUnauthorized : Nat := 401
abbrev StatusInternalServerError : Nat := 500

/-- The message of gorm's `ErrRecordNotFound`. -/
def ErrRecordNotFound : String := "record not found"

/-- The fresh response recorder a handler starts with. -/
def Response.new : Response :=
  { status := StatusOK, header := [], cookies := [], body := Payload.empty }

/-- The state at handler entry. -/
def State.start (db : DB) : State :=
  { w := Response.new, db := db, log := [], ops := [] }

/-- Records a store access. -/
def State.record (st : State) (op : Op) : State :=
  { st with ops := st.ops ++ [op] }

/-- The method `w.Header().Set(key, value)`. -/
def setHeader (w : Response) (key value : String) : Response :=
  { w with header := (w.header.filter (fun kv => kv.1 != key)) ++ [(key, value)] }

/-- The function `http.Error(w, error, code)`: plain-text content type, the
nosniff option, the status code, and the message followed by a newline. -/
def httpError (st : State) (error : String) (code : Nat) : State :=
  let w := setHeader st.w "Content-Type" "text/plain; charset=utf-8"
  let w := setHeader w "X-Content-Type-Options" "nosniff"
  { st with w := { w with status := code, body := Payload.text (error ++ "\n") } }

/-- The function `errors.Wrap(err, msg).Error()`. -/
def Wrap (err : String) (msg : String) : String :=
  msg ++ ": " ++ err

/-- Modelled from the spec: HandleError, a helper of the handlers package
that is not in this file. Storage and encoding failures "are logged with
full detail server-side and surfaced to the client as an opaque server
error": the message and cause go to the log, the client gets the status
code and a text that depends on the status code only. -/
def HandleError (deps : Deps) (st : State) (msg : String) (err : Option String)
    (statusCode : Nat) : State :=
  { st with
    log := st.log ++ [{ msg := msg, err := err, accountID := none }],
    w := { st.w with status := statusCode, body := Payload.text (deps.errorText statusCode) } }

/-- Modelled from the spec: setSessionCookie, a helper of the handlers
package that is not in this file. The session key and its absolute expiry
are bound to the response as a cookie with an expiry attribute. -/
def setSessionCookie (st : State) (key : String) (expires : Int) : State :=
  { st with w := { st.w with
      cookies := st.w.cookies ++ [{ Name := "id", Value := key, Expires := expires }] } }

/-- Modelled from the spec: respondJSON, a helper of the handlers package
that is not in this file: the payload is sent as JSON with the given
status. -/
def respondJSON (st : State) (statusCode : Nat) (payload : Payload) : State :=
  let w := setHeader st.w "Content-Type" "application/json"
  { st with w := { w with status := statusCode, body := payload } }

/-- The call `json.NewEncoder(w).Encode(response)` on the recorder. The
payloads encoded here are structs of integers and strings, for which
encoding has no failing case, and writes to the recorder succeed; the
error branch that follows the call in the source is therefore not taken. -/
def encode (st : State) (payload : Payload) : State :=
  { st with w := { st.w with body := payload } }

/-! ## The store operations -/

/-- Among the rows satisfying `p`, the one with the least primary key:
`SELECT * FROM accounts WHERE p ORDER BY id LIMIT 1`. -/
def firstRow (p : Account → Bool) : List Account → Option Account
  | [] => none
  | a :: rest =>
    match firstRow p rest with
    | none => if p a then some a else none
    | some b => if p a && decide (a.ID ≤ b.ID) then some a else some b

/-- Outcome of `a.DB.Where(...).First(&account)`. -/
inductive Query where
  | found (account : Account)
  | recordNotFound
  | failed (err : String)
deriving DecidableEq

/-- The query `a.DB.Where(p).First(&account)`: a storage failure, or the
first matching row, or `RecordNotFound`. -/
def First (fault : Option String) (db : DB) (p : Account → Bool) : Query :=
  match fault with
  | some err => Query.failed err
  | none =>
    match firstRow p db.accounts with
    | some account => Query.found account
    | none => Query.recordNotFound

/-- The statement gorm issues for `Model(&account).Update(...)`, on the
rows: `UPDATE accounts SET ... WHERE id = ?` when the primary key `id` of
the model is not zero; when it is zero gorm adds no primary-key condition
and the `UPDATE`, having no `WHERE` clause, rewrites every row. -/
def updateRows (id : Int) (f : Account → Account) (rows : List Account) : List Account :=
  rows.map (fun a => if id = 0 ∨ a.ID = id then f a else a)

/-- The call `a.DB.Model(&account).Update(...)`: updates the row whose
primary key is that of `account` (every row when that key is zero), or
fails leaving the store as it was. -/
def Update (fault : Option String) (db : DB) (account : Account) (f : Account → Account) :
    Except String DB :=
  match fault with
  | some err => Except.error err
  | none => Except.ok { db with accounts := updateRows account.ID f db.accounts }

/-- The query `a.DB.Where("user_id = ? AND encrypted = true", id).Find(&notes)`. -/
def FindNotes (fault : Option String) (db : DB) (userID : Int) : Except String (List Note) :=
  match fault with
  | some err => Except.error err
  | none => Except.ok (db.notes.filter (fun n => n.UserID == userID && n.Encrypted == true))

/-- Modelled from the spec: operations.CreateSession, which is not in this
file. It "creates a session with a newly generated unpredictable key and
an expiry computed by adding a fixed session lifetime to the current
time"; "if record creation fails (storage error), the operation fails
atomically and no partial session is visible". -/
def CreateSession (deps : Deps) (env : Env) (db : DB) (userID : Int) :
    Except String (Session × DB) :=
  match env.faults.create with
  | some err => Except.error err
  | none =>
    let session : Session :=
      { Key := env.sessionKey, UserID := userID, ExpiresAt := env.now + deps.sessionLifetime }
    Except.ok (session, { db with sessions := db.sessions ++ [session] })

/-! ## The handlers -/

/-- The column map of the update in `classicMigrate`. -/
def migrateColumns (a : Account) : Account :=
  { a with
    Salt := "",
    AuthKeyHash := "",
    CipherKeyEnc := "",
    ClientKDFIteration := 0,
    ServerKDFIteration := 0 }

/-- The handler `classicMigrate`. -/
def classicMigrate {β : Type} (deps : Deps) (env : Env) (db : DB) (r : Request β) : State :=
  let st := State.start db
  match r.user with
  | none => HandleError deps st "No authenticated user found" none StatusInternalServerError
  | some user =>
    let st := st.record (Op.findAccountByUser user.ID)
    match First env.faults.find st.db (fun a => a.UserID == user.ID) with
    | Query.recordNotFound =>
      HandleError deps st "finding account" (some ErrRecordNotFound) StatusInternalServerError
    | Query.failed err =>
      HandleError deps st "finding account" (some err) StatusInternalServerError
    | Query.found account =>
      let st := st.record (Op.updateAccount account.ID)
      match Update env.faults.update st.db account migrateColumns with
      | Except.error err =>
        HandleError deps st "updating account" (some err) StatusInternalServerError
      | Except.ok db2 => { st with db := db2 }

/-- The handler `classicPresignin`. -/
def classicPresignin {β : Type} (deps : Deps) (env : Env) (db : DB) (r : Request β) : State :=
  let st := State.start db
  let email := r.queryEmail
  if email = "" then
    httpError st "email is required" StatusBadRequest
  else
    let st := st.record (Op.findAccountByEmail email)
    match First env.faults.find st.db (fun a => a.Email == some email) with
    | Query.failed err =>
      HandleError deps st "getting user" (some err) StatusInternalServerError
    | Query.recordNotFound =>
      let response : PresigninResponse := { Iteration := 100000 }
      encode { st with w := setHeader st.w "Content-Type" "application/json" }
        (Payload.presignin response)
    | Query.found account =>
      let response : PresigninResponse := { Iteration := account.ClientKDFIteration }
      encode { st with w := setHeader st.w "Content-Type" "application/json" }
        (Payload.presignin response)

/-- The handler `classicSignin`. -/
def classicSignin (deps : Deps) (env : Env) (db : DB) (r : Request classicSigninPayload) :
    State :=
  let st := State.start db
  match r.body with
  | Except.error err =>
    HandleError deps st "decoding payload" (some err) StatusInternalServerError
  | Except.ok params =>
    if params.Email = "" ∨ params.AuthKey = "" then
      httpError st deps.ErrLoginFailure StatusUnauthorized
    else
      let st := st.record (Op.findAccountByEmail params.Email)
      match First env.faults.find st.db (fun a => a.Email == some params.Email) with
      | Query.recordNotFound => httpError st deps.ErrLoginFailure StatusUnauthorized
      | Query.failed err =>
        HandleError deps st "getting user" (some err) StatusInternalServerError
      | Query.found account =>
        let authKeyHash :=
          deps.HashAuthKey params.AuthKey account.Salt account.ServerKDFIteration
        if account.AuthKeyHash ≠ authKeyHash then
          let st := { st with log := st.log ++
            [{ msg := "Sign in password mismatch", err := none, accountID := some account.ID }] }
          httpError st deps.ErrLoginFailure StatusUnauthorized
        else
          let st := st.record (Op.createSession account.UserID)
          match CreateSession deps env st.db account.UserID with
          | Except.error _ => HandleError deps st "creating session" none StatusBadRequest
          | Except.ok (session, db2) =>
            let st := { st with db := db2 }
            let st := setSessionCookie st session.Key session.ExpiresAt
            let response : SigninResponse :=
              { Key := session.Key,
                ExpiresAt := session.ExpiresAt,
                CipherKeyEnc := account.CipherKeyEnc }
            encode { st with w := setHeader st.w "Content-Type" "application/json" }
              (Payload.signin response)

/-- The handler `classicGetMe`. -/
def classicGetMe {β : Type} (deps : Deps) (env : Env) (db : DB) (r : Request β) : State :=
  let st := State.start db
  match r.user with
  | none => HandleError deps st "No authenticated user found" none StatusInternalServerError
  | some user =>
    let st := st.record (Op.findAccountByUser user.ID)
    match First env.faults.find st.db (fun a => a.UserID == user.ID) with
    | Query.recordNotFound =>
      HandleError deps st "finding account" (some ErrRecordNotFound) StatusInternalServerError
    | Query.failed err =>
      HandleError deps st "finding account" (some err) StatusInternalServerError
    | Query.found account =>
      let legacy := decide (account.AuthKeyHash = "")
      let session : classicSession :=
        { ID := user.ID,
          GithubName := account.Nickname,
          GithubAccountID := account.AccountID,
          APIKey := user.APIKey,
          Cloud := user.Cloud,
          Email := account.Email.getD "",
          EmailVerified := account.EmailVerified,
          Name := user.Name,
          Provider := account.Provider,
          Legacy := legacy,
          Encrypted := user.Encrypted,
          CipherKeyEnc := account.CipherKeyEnc }
      respondJSON st StatusOK (Payload.me session)

/-- The handler `classicSetPassword`. -/
def classicSetPassword (deps : Deps) (env : Env) (db : DB)
    (r : Request classicSetPasswordPayload) : State :=
  let st := State.start db
  match r.user with
  | none => HandleError deps st "No authenticated user found" none StatusInternalServerError
  | some user =>
    match r.body with
    | Except.error err =>
      HandleError deps st "decoding payload" (some err) StatusInternalServerError
    | Except.ok params =>
      let st := st.record (Op.findAccountByUser user.ID)
      match First env.faults.find st.db (fun a => a.UserID == user.ID) with
      | Query.recordNotFound => HandleError deps st "getting user" none StatusInternalServerError
      | Query.failed _ => HandleError deps st "getting user" none StatusInternalServerError
      | Query.found account =>
        match deps.GenerateFromPassword params.Password deps.DefaultCost env.entropy with
        | Except.error err =>
          httpError st (Wrap err "hashing password") StatusInternalServerError
        | Except.ok hashedNewPassword =>
          let st := st.record (Op.updateAccount account.ID)
          match Update env.faults.update st.db account
              (fun a => { a with Password := some hashedNewPassword }) with
          | Except.error err =>
            httpError st (Wrap err "updating password") StatusInternalServerError
          | Except.ok db2 => { st with db := db2, w := { st.w with status := StatusOK } }

/-- The handler `classicGetNotes`. -/
def classicGetNotes {β : Type} (deps : Deps) (env : Env) (db : DB) (r : Request β) : State :=
  let st := State.start db
  match r.user with
  | none => HandleError deps st "No authenticated user found" none StatusInternalServerError
  | some user =>
    let st := st.record (Op.findNotes user.ID)
    match FindNotes env.faults.find st.db user.ID with
    | Except.error err =>
      HandleError deps st "finding notes" (some err) StatusInternalServerError
    | Except.ok notes =>
      let presented := deps.PresentNotes notes
      respondJSON st StatusOK (Payload.notes presented)

/-- One request served by one of the handlers of this file. -/
inductive Step where
  | migrate (r : Request Unit)
  | presignin (r : Request Unit)
  | signin (r : Request classicSigninPayload)
  | getMe (r : Request Unit)
  | setPassword (r : Request classicSetPasswordPayload)
  | getNotes (r : Request Unit)

/-- Serving one request. -/
def step (deps : Deps) (env : Env) (db : DB) : Step → State
  | Step.migrate r => classicMigrate deps env db r
  | Step.presignin r => classicPresignin deps env db r
  | Step.signin r => classicSignin deps env db r
  | Step.getMe r => classicGetMe deps env db r
  | Step.setPassword r => classicSetPassword deps env db r
  | Step.getNotes r => classicGetNotes deps env db r

/-- The causes of a credential failure in `classicSignin`: an empty email,
an empty auth_key, no account with the submitted email, or an account
(the one the lookup selects) whose stored hash differs from the hash
recomputed from the submitted key. -/
inductive CredentialFailure (deps : Deps) (env : Env) (db : DB)
    (r : Request classicSigninPayload) : Prop where
  | emptyEmail (params : classicSigninPayload) :
      r.body = Except.ok params → params.Email = "" → CredentialFailure deps env db r
  | emptyAuthKey (params : classicSigninPayload) :
      r.body = Except.ok params → params.AuthKey = "" → CredentialFailure deps env db r
  | noAccount (params : classicSigninPayload) :
      r.body = Except.ok params → env.faults.find = none →
      (∀ a ∈ db.accounts, a.Email ≠ some params.Email) → CredentialFailure deps env db r
  | wrongKey (params : classicSigninPayload) (account : Account) :
      r.body = Except.ok params → env.faults.find = none →
      firstRow (fun a => a.Email == some params.Email) db.accounts = some account →
      deps.HashAuthKey params.AuthKey account.Salt account.ServerKDFIteration
        ≠ account.AuthKeyHash →
      CredentialFailure deps env db r

/-! ## A sample store, used to instantiate the results -/

/-- A stand-in for the collaborators: the hash is a transparent string
built from the key, the salt and nothing else. -/
def sampleDeps : Deps :=
  { HashAuthKey := fun authKey salt _ => "H(" ++ authKey ++ "," ++ salt ++ ")",
    ErrLoginFailure := "Wrong email and password combination",
    GenerateFromPassword := fun password _ _ => Except.ok ("bcrypt(" ++ password ++ ")"),
    DefaultCost := 10,
    errorText := fun _ => "error",
    sessionLifetime := 8640000,
    PresentNotes := fun _ => "[]" }

/-- A Classic account: salt s1, iteration 100000, hash of the key k1. -/
def aliceAccount : Account :=
  { ID := 1, UserID := 7, AccountID := "", Nickname := "", Provider := "",
    Email := some "alice@example.com", EmailVerified := true, Password := none,
    ClientKDFIteration := 100000, ServerKDFIteration := 100000,
    AuthKeyHash := "H(k1,s1)", Salt := "s1", CipherKeyEnc := "blob" }

/-- A second Classic account, of another user. -/
def bobAccount : Account :=
  { ID := 2, UserID := 8, AccountID := "", Nickname := "", Provider := "",
    Email := some "bob@example.com", EmailVerified := false, Password := none,
    ClientKDFIteration := 5000, ServerKDFIteration := 5000,
    AuthKeyHash := "H(k2,s2)", Salt := "s2", CipherKeyEnc := "blob2" }

def alice : User :=
  { ID := 7, APIKey := "", Name := "alice", Cloud := false, Encrypted := true }

def sampleDB : DB :=
  { accounts := [aliceAccount, bobAccount], sessions := [], notes := [] }

def noFaults : Faults :=
  { find := none, update := none, create := none }

def sampleEnv : Env :=
  { faults := noFaults, now := 1000, sessionKey := "sk", entropy := 0 }

/-- A request of the authenticated user alice, with no payload. -/
def aliceRequest : Request Unit :=
  { user := some alice, queryEmail := "", body := Except.ok () }

/-- An account whose stored hash is the hash of the empty key. -/
def carolAccount : Account :=
  { ID := 3, UserID := 9, AccountID := "", Nickname := "", Provider := "",
    Email := some "carol@example.com", EmailVerified := true, Password := none,
    ClientKDFIteration := 100000, ServerKDFIteration := 100000,
    AuthKeyHash := "H(,s3)", Salt := "s3", CipherKeyEnc := "blob3" }

def carolDB : DB :=
  { accounts := [aliceAccount, bobAccount, carolAccount], sessions := [], notes := [] }

/-- Sign-in of carol with the empty key. -/
def carolSignin : Request classicSigninPayload :=
  { user := none, queryEmail := "",
    body := Except.ok { Email := "carol@example.com", AuthKey := "" } }

/-- Sign-in of alice with her key. -/
def aliceSignin : Request classicSigninPayload :=
  { user := none, queryEmail := "",
    body := Except.ok { Email := "alice@example.com", AuthKey := "k1" } }

/-- Sign-in of alice with another key. -/
def aliceWrongSignin : Request classicSigninPayload :=
  { user := none, queryEmail := "",
    body := Except.ok { Email := "alice@example.com", AuthKey := "wrong" } }

/-- Sign-in with an email no account carries. -/
def nobodySignin : Request classicSigninPayload :=
  { user := none, queryEmail := "",
    body := Except.ok { Email := "nobody@example.com", AuthKey := "k1" } }

/-- An environment in which the creation of the session record fails. -/
def createFails : Env :=
  { faults := { find := none, update := none, create := some "connection refused" },
    now := 1000, sessionKey := "sk", entropy := 0 }

/-- A set-password request of alice, with the empty password. -/
def aliceSetPassword : Request classicSetPasswordPayload :=
  { user := some alice, queryEmail := "", body := Except.ok { Password := "" } }

/-- A presignin request for the email of bob. -/
def bobPresignin : Request Unit :=
  { user := none, queryEmail := "bob@example.com", body := Except.ok () }

/-! ## Lemmas on the store operations -/

theorem firstRow_mem (p : Account → Bool) (rows : List Account) (a : Account)
    (h : firstRow p rows = some a) : a ∈ rows ∧ p a = true := by
  induction rows generalizing a with
  | nil => simp [firstRow] at h
  | cons x rest ih =>
    unfold firstRow at h
    cases hr : firstRow p rest with
    | none =>
      rw [hr] at h
      by_cases hp : p x = true
      · simp [hp] at h
        subst h
        simp [hp]
      · simp [hp] at h
    | some b =>
      rw [hr] at h
      have hb := ih b hr
      by_cases hc : (p x && decide (x.ID ≤ b.ID)) = true
      · simp only [hc, if_true] at h
        cases h
        simp only [Bool.and_eq_true] at hc
        simp [hc.1]
      · simp only [hc] at h
        cases h
        simp [hb.1, hb.2]

theorem firstRow_eq_none_iff (p : Account → Bool) (rows : List Account) :
    firstRow p rows = none ↔ ∀ a ∈ rows, p a = false := by
  induction rows with
  | nil => simp [firstRow]
  | cons x rest ih =>
    unfold firstRow
    cases hr : firstRow p rest with
    | none =>
      have hrest := ih.mp hr
      by_cases hp : p x = true
      · simp [hp]
      · simp only [Bool.not_eq_true] at hp
        simp only [hp, Bool.false_eq_true, if_false, List.mem_cons, forall_eq_or_imp, true_and,
          true_iff]
        exact hrest
    | some b =>
      have hb := firstRow_mem p rest b hr
      by_cases hc : (p x && decide (x.ID ≤ b.ID)) = true
      · simp only [hc, if_true]
        simp only [Bool.and_eq_true] at hc
        constructor
        · intro h; cases h
        · intro h
          have := h x (List.mem_cons_self _ _)
          rw [hc.1] at this
          cases this
      · simp only [hc]
        constructor
        · intro h; cases h
        · intro h
          have := h b (List.mem_cons_of_mem _ hb.1)
          rw [hb.2] at this
          cases this

theorem firstRow_map (p : Account → Bool) (g : Account → Account)
    (hID : ∀ a, (g a).ID = a.ID) (hp : ∀ a, p (g a) = p a) (rows : List Account) :
    firstRow p (rows.map g) = (firstRow p rows).map g := by
  induction rows with
  | nil => simp [firstRow]
  | cons x rest ih =>
    simp only [List.map_cons, firstRow, ih]
    cases hr : firstRow p rest with
    | none => by_cases hx : p x = true <;> simp [hp, hx]
    | some b =>
      simp only [Option.map_some', hp, hID]
      by_cases hc : (p x && decide (x.ID ≤ b.ID)) = true <;> simp [hc]

theorem firstRow_updateRows (p : Account → Bool) (f : Account → Account) (id : Int)
    (hID : ∀ a, (f a).ID = a.ID) (hp : ∀ a, p (f a) = p a) (rows : List Account) :
    firstRow p (updateRows id f rows) =
      (firstRow p rows).map (fun a => if id = 0 ∨ a.ID = id then f a else a) := by
  unfold updateRows
  apply firstRow_map
  · intro a; by_cases h : id = 0 ∨ a.ID = id <;> simp [h, hID]
  · intro a; by_cases h : id = 0 ∨ a.ID = id <;> simp [h, hp]

theorem firstRow_updateRows_self (p : Account → Bool) (f : Account → Account)
    (account : Account) (hID : ∀ a, (f a).ID = a.ID) (hp : ∀ a, p (f a) = p a)
    (rows : List Account) (h : firstRow p rows = some account) :
    firstRow p (updateRows account.ID f rows) = some (f account) := by
  rw [firstRow_updateRows p f account.ID hID hp rows, h]
  simp

theorem updateRows_zero (f : Account → Account) (rows : List Account) :
    updateRows 0 f rows = rows.map f := by
  simp [updateRows]

theorem updateRows_of_ne_zero (id : Int) (hid : id ≠ 0) (f : Account → Account)
    (rows : List Account) :
    updateRows id f rows = rows.map (fun a => if a.ID = id then f a else a) := by
  simp [updateRows, hid]

theorem firstRow_unique (p : Account → Bool) (rows : List Account) (a : Account)
    (ha : a ∈ rows) (hpa : p a = true) (hu : ∀ b ∈ rows, p b = true → b = a) :
    firstRow p rows = some a := by
  cases h : firstRow p rows with
  | none =>
    have := (firstRow_eq_none_iff p rows).mp h a ha
    rw [hpa] at this
    cases this
  | some b =>
    have hb := firstRow_mem p rows b h
    rw [hu b hb.1 hb.2]

theorem First_eq_recordNotFound_iff (fault : Option String) (db : DB) (p : Account → Bool) :
    First fault db p = Query.recordNotFound ↔
      fault = none ∧ ∀ a ∈ db.accounts, p a = false := by
  rw [← firstRow_eq_none_iff]
  cases fault with
  | some err => simp [First]
  | none => cases h : firstRow p db.accounts <;> simp [First, h]

theorem First_eq_found_iff (fault : Option String) (db : DB) (p : Account → Bool)
    (account : Account) :
    First fault db p = Query.found account ↔
      fault = none ∧ firstRow p db.accounts = some account := by
  cases fault with
  | some err => simp [First]
  | none => cases h : firstRow p db.accounts <;> simp [First, h]

theorem forall₂_updateRows (R : Account → Account → Prop) (id : Int)
    (f : Account → Account) (rows : List Account)
    (h : ∀ a ∈ rows, R a (if id = 0 ∨ a.ID = id then f a else a)) :
    List.Forall₂ R rows (updateRows id f rows) := by
  unfold updateRows
  rw [List.forall₂_map_right_iff]
  exact List.forall₂_same.mpr h

theorem mem_updateRows (id : Int) (f : Account → Account) (rows : List Account)
    (b : Account) (hb : b ∈ updateRows id f rows) :
    ∃ a ∈ rows, b = if id = 0 ∨ a.ID = id then f a else a := by
  unfold updateRows at hb
  rcases List.mem_map.mp hb with ⟨a, ha, rfl⟩
  exact ⟨a, ha, rfl⟩

theorem eq_of_ID_eq (rows : List Account) (hPK : (rows.map Account.ID).Nodup)
    (a b : Account) (ha : a ∈ rows) (hb : b ∈ rows) (h : a.ID = b.ID) : a = b :=
  List.inj_on_of_nodup_map hPK ha hb h

/-! ## classicPresignin -/

/-- C5: classicPresignin has three cases. An empty identifier is answered
400 with the text "email is required" and no store access is made. A
non-empty identifier for which the lookup reports no record, which is the
case when the lookup meets no storage error and no account of the store
carries that email, is answered 200 with iteration 100000. A non-empty
identifier for which the lookup returns an account is answered 200 with
the ClientKDFIteration of that account; when the lookup meets no storage
error and exactly one account carries the email, it is that account. In
every case, a failing lookup included, the store is left as it was. -/
theorem classicPresignin_cases {β : Type} (deps : Deps) (env : Env) (db : DB)
    (r : Request β) :
    (r.queryEmail = "" →
      (classicPresignin deps env db r).w.status = StatusBadRequest ∧
      (classicPresignin deps env db r).w.body = Payload.text "email is required\n" ∧
      (classicPresignin deps env db r).ops = []) ∧
    (r.queryEmail ≠ "" →
      First env.faults.find db (fun a => a.Email == some r.queryEmail)
        = Query.recordNotFound →
      (classicPresignin deps env db r).w.status = StatusOK ∧
      (classicPresignin deps env db r).w.body =
        Payload.presignin { Iteration := 100000 }) ∧
    (r.queryEmail ≠ "" → env.faults.find = none →
      (∀ a ∈ db.accounts, a.Email ≠ some r.queryEmail) →
      (classicPresignin deps env db r).w.status = StatusOK ∧
      (classicPresignin deps env db r).w.body =
        Payload.presignin { Iteration := 100000 }) ∧
    (∀ account : Account, r.queryEmail ≠ "" →
      First env.faults.find db (fun a => a.Email == some r.queryEmail)
        = Query.found account →
      (classicPresignin deps env db r).w.status = StatusOK ∧
      (classicPresignin deps env db r).w.body =
        Payload.presignin { Iteration := account.ClientKDFIteration }) ∧
    (∀ account : Account, r.queryEmail ≠ "" → env.faults.find = none →
      account ∈ db.accounts → account.Email = some r.queryEmail →
      (∀ b ∈ db.accounts, b.Email = some r.queryEmail → b = account) →
      (classicPresignin deps env db r).w.status = StatusOK ∧
      (classicPresignin deps env db r).w.body =
        Payload.presignin { Iteration := account.ClientKDFIteration }) ∧
    (classicPresignin deps env db r).db = db := by
  have notFound : r.queryEmail ≠ "" →
      First env.faults.find db (fun a => a.Email == some r.queryEmail)
        = Query.recordNotFound →
      (classicPresignin deps env db r).w.status = StatusOK ∧
      (classicPresignin deps env db r).w.body =
        Payload.presignin { Iteration := 100000 } := by
    intro he hq
    simp [classicPresignin, he, hq, State.start, State.record, encode, setHeader, Response.new]
  have found : ∀ account : Account, r.queryEmail ≠ "" →
      First env.faults.find db (fun a => a.Email == some r.queryEmail)
        = Query.found account →
      (classicPresignin deps env db r).w.status = StatusOK ∧
      (classicPresignin deps env db r).w.body =
        Payload.presignin { Iteration := account.ClientKDFIteration } := by
    intro account he hq
    simp [classicPresignin, he, hq, State.start, State.record, encode, setHeader, Response.new]
  refine ⟨?_, notFound, ?_, found, ?_, ?_⟩
  · intro he
    simp [classicPresignin, he, httpError, State.start, setHeader, Response.new]
  · intro he hf hnone
    apply notFound he
    rw [First_eq_recordNotFound_iff]
    refine ⟨hf, ?_⟩
    intro a ha
    simpa using hnone a ha
  · intro account he hf hmem hmail huniq
    apply found account he
    rw [First_eq_found_iff]
    refine ⟨hf, ?_⟩
    apply firstRow_unique
    · exact hmem
    · simp [hmail]
    · intro b hb hpb
      apply huniq b hb
      simpa using hpb
  · unfold classicPresignin
    by_cases he : r.queryEmail = ""
    · simp [he, httpError, State.start]
    · simp only [he, if_false, State.start, State.record]
      split <;> simp [HandleError, encode]

/-! ## classicMigrate -/

theorem classicMigrate_db {β : Type} (deps : Deps) (env : Env) (db : DB) (r : Request β) :
    ((classicMigrate deps env db r).db = db ∧
      (classicMigrate deps env db r).w.status = StatusInternalServerError) ∨
    ∃ user account, r.user = some user ∧
      firstRow (fun a => a.UserID == user.ID) db.accounts = some account ∧
      env.faults.find = none ∧ env.faults.update = none ∧
      (classicMigrate deps env db r).w = Response.new ∧
      (classicMigrate deps env db r).db =
        { db with accounts := updateRows account.ID migrateColumns db.accounts } := by
  cases hu : r.user with
  | none => left; simp [classicMigrate, hu, HandleError, State.start]
  | some user =>
    cases hf : env.faults.find with
    | some err =>
      left; simp [classicMigrate, hu, hf, First, HandleError, State.start, State.record]
    | none =>
      cases hrow : firstRow (fun a => a.UserID == user.ID) db.accounts with
      | none =>
        left
        simp [classicMigrate, hu, hf, First, hrow, HandleError, State.start, State.record]
      | some account =>
        cases hup : env.faults.update with
        | some err =>
          left
          simp [classicMigrate, hu, hf, First, hrow, hup, Update, HandleError, State.start,
            State.record]
        | none =>
          right
          refine ⟨user, account, rfl, hrow, rfl, rfl, ?_, ?_⟩ <;>
            simp [classicMigrate, hu, hf, First, hrow, hup, Update, State.start, State.record]

/-- C3: when the authenticated user has an account and classicMigrate meets
no storage error, it answers 200 and the row found for the user afterwards
is the same account with salt, AuthKeyHash and CipherKeyEnc empty and both
iteration counts 0, as is every row with that primary key; a classicGetMe
that follows for the same user answers 200 with legacy = true and
cipher_key_enc empty. -/
theorem classicMigrate_makes_legacy {β : Type} (deps : Deps) (env env2 : Env) (db : DB)
    (r : Request β) (user : User) (account : Account)
    (hUser : r.user = some user)
    (hAccount : firstRow (fun a => a.UserID == user.ID) db.accounts = some account)
    (hFind : env.faults.find = none) (hUpdate : env.faults.update = none)
    (hFind2 : env2.faults.find = none) :
    (classicMigrate deps env db r).w.status = StatusOK ∧
    (∃ migrated : Account,
      firstRow (fun a => a.UserID == user.ID) (classicMigrate deps env db r).db.accounts
        = some migrated ∧
      migrated.ID = account.ID ∧ migrated.Salt = "" ∧ migrated.AuthKeyHash = "" ∧
      migrated.CipherKeyEnc = "" ∧ migrated.ClientKDFIteration = 0 ∧
      migrated.ServerKDFIteration = 0) ∧
    (∀ a ∈ (classicMigrate deps env db r).db.accounts, a.ID = account.ID →
      a.Salt = "" ∧ a.AuthKeyHash = "" ∧ a.CipherKeyEnc = "" ∧
      a.ClientKDFIteration = 0 ∧ a.ServerKDFIteration = 0) ∧
    (∃ me : classicSession,
      (classicGetMe deps env2 (classicMigrate deps env db r).db r).w.status = StatusOK ∧
      (classicGetMe deps env2 (classicMigrate deps env db r).db r).w.body = Payload.me me ∧
      me.Legacy = true ∧ me.CipherKeyEnc = "") := by
  have hdb : (classicMigrate deps env db r).db =
      { db with accounts := updateRows account.ID migrateColumns db.accounts } := by
    simp [classicMigrate, hUser, hFind, First, hAccount, hUpdate, Update, State.start,
      State.record]
  have hrow : firstRow (fun a => a.UserID == user.ID)
      (classicMigrate deps env db r).db.accounts = some (migrateColumns account) := by
    rw [hdb]
    exact firstRow_updateRows_self (fun a => a.UserID == user.ID) migrateColumns account
      (fun a => rfl) (fun a => rfl) db.accounts hAccount
  refine ⟨?_, ⟨migrateColumns account, hrow, rfl, rfl, rfl, rfl, rfl, rfl⟩, ?_, ?_⟩
  · simp [classicMigrate, hUser, hFind, First, hAccount, hUpdate, Update, State.start,
      State.record, Response.new]
  · intro a ha hid
    rw [hdb] at ha
    rcases mem_updateRows _ _ _ a ha with ⟨b, _, rfl⟩
    by_cases hb : account.ID = 0 ∨ b.ID = account.ID
    · simp [hb, migrateColumns]
    · rw [if_neg hb] at hid
      exact absurd (Or.inr hid) hb
  · simp [classicGetMe, hUser, hFind2, First, hrow, State.start, State.record, respondJSON,
      setHeader, migrateColumns]

/-- C10: classicMigrate leaves every account row with the email, legacy
password hash, user id, email_verified, provider, nickname, account id and
primary key it had; when the primary keys of the store are unique and
none is zero, every row owned by another user is unchanged; sessions and
notes are unchanged; and when no
authenticated user is in the request context, or the lookup of the
account of the user does not find one, the store is unchanged and the
status is 500. -/
theorem classicMigrate_frame {β : Type} (deps : Deps) (env : Env) (db : DB)
    (r : Request β) :
    List.Forall₂
      (fun a b : Account =>
        b.ID = a.ID ∧ b.UserID = a.UserID ∧ b.AccountID = a.AccountID ∧
        b.Nickname = a.Nickname ∧ b.Provider = a.Provider ∧ b.Email = a.Email ∧
        b.EmailVerified = a.EmailVerified ∧ b.Password = a.Password)
      db.accounts (classicMigrate deps env db r).db.accounts ∧
    ((db.accounts.map Account.ID).Nodup → (∀ a ∈ db.accounts, a.ID ≠ 0) →
      ∀ user : User, r.user = some user →
      List.Forall₂ (fun a b : Account => a.UserID ≠ user.ID → b = a)
        db.accounts (classicMigrate deps env db r).db.accounts) ∧
    (classicMigrate deps env db r).db.sessions = db.sessions ∧
    (classicMigrate deps env db r).db.notes = db.notes ∧
    (r.user = none →
      (classicMigrate deps env db r).db = db ∧
      (classicMigrate deps env db r).w.status = StatusInternalServerError) ∧
    (∀ user : User, r.user = some user →
      (∀ account, First env.faults.find db (fun a => a.UserID == user.ID)
        ≠ Query.found account) →
      (classicMigrate deps env db r).db = db ∧
      (classicMigrate deps env db r).w.status = StatusInternalServerError) := by
  refine ⟨?_, ?_, ?_, ?_, ?_, ?_⟩
  · rcases classicMigrate_db deps env db r with h | ⟨user, account, _, _, _, _, _, h⟩
    · rw [h.1]
      exact List.forall₂_same.mpr (fun a _ => ⟨rfl, rfl, rfl, rfl, rfl, rfl, rfl, rfl⟩)
    · rw [h]
      apply forall₂_updateRows
      intro a _
      by_cases ha : account.ID = 0 ∨ a.ID = account.ID <;> simp [ha, migrateColumns]
  · intro hPK hKeys user hUser
    rcases classicMigrate_db deps env db r with h | ⟨user2, account, hu2, hrow, _, _, _, h⟩
    · rw [h.1]
      exact List.forall₂_same.mpr (fun a _ _ => rfl)
    · rw [h]
      apply forall₂_updateRows
      intro a ha hne
      have hacc := firstRow_mem _ _ _ hrow
      have hkey : account.ID ≠ 0 := hKeys account hacc.1
      rw [hUser] at hu2
      cases hu2
      by_cases hid : a.ID = account.ID
      · have := eq_of_ID_eq db.accounts hPK a account ha hacc.1 hid
        subst this
        simp at hacc
        exact absurd hacc.2 hne
      · simp [hid, hkey]
  · rcases classicMigrate_db deps env db r with h | ⟨_, _, _, _, _, _, _, h⟩ <;> simp [h]
  · rcases classicMigrate_db deps env db r with h | ⟨_, _, _, _, _, _, _, h⟩ <;> simp [h]
  · intro hu
    simp [classicMigrate, hu, HandleError, State.start]
  · intro user hu hq
    cases hf : env.faults.find with
    | some err =>
      simp [classicMigrate, hu, hf, First, HandleError, State.start, State.record]
    | none =>
      cases hrow : firstRow (fun a => a.UserID == user.ID) db.accounts with
      | none =>
        simp [classicMigrate, hu, hf, First, hrow, HandleError, State.start, State.record]
      | some account =>
        exact absurd (by simp [First, hf, hrow]) (hq account)

/-! ## classicSignin -/

theorem classicSignin_reject (deps : Deps) (env : Env) (db : DB)
    (r : Request classicSigninPayload) (h : CredentialFailure deps env db r) :
    (classicSignin deps env db r).w =
      { status := StatusUnauthorized,
        header := [("Content-Type", "text/plain; charset=utf-8"),
          ("X-Content-Type-Options", "nosniff")],
        cookies := [],
        body := Payload.text (deps.ErrLoginFailure ++ "\n") } ∧
    (classicSignin deps env db r).db = db := by
  have guard : ∀ params : classicSigninPayload, r.body = Except.ok params →
      (params.Email = "" ∨ params.AuthKey = "") →
      (classicSignin deps env db r).w =
        { status := StatusUnauthorized,
          header := [("Content-Type", "text/plain; charset=utf-8"),
            ("X-Content-Type-Options", "nosniff")],
          cookies := [],
          body := Payload.text (deps.ErrLoginFailure ++ "\n") } ∧
      (classicSignin deps env db r).db = db := by
    intro params hb hg
    simp [classicSignin, hb, hg, httpError, setHeader, State.start, Response.new]
  cases h with
  | emptyEmail params hb he => exact guard params hb (Or.inl he)
  | emptyAuthKey params hb hk => exact guard params hb (Or.inr hk)
  | noAccount params hb hf hnone =>
    by_cases hg : params.Email = "" ∨ params.AuthKey = ""
    · exact guard params hb hg
    · have hrow : firstRow (fun a => a.Email == some params.Email) db.accounts = none := by
        rw [firstRow_eq_none_iff]
        intro a ha
        simpa using hnone a ha
      simp [classicSignin, hb, hg, hf, First, hrow, httpError, setHeader, State.start,
        State.record, Response.new]
  | wrongKey params account hb hf hrow hne =>
    by_cases hg : params.Email = "" ∨ params.AuthKey = ""
    · exact guard params hb hg
    · have hne2 : account.AuthKeyHash ≠
          deps.HashAuthKey params.AuthKey account.Salt account.ServerKDFIteration :=
        fun h => hne h.symm
      simp [classicSignin, hb, hg, hf, First, hrow, hne2, httpError, setHeader, State.start,
        State.record, Response.new]

/-- C2: any two runs of classicSignin that end in a credential failure,
whatever the cause (empty email, empty auth_key, no account with that
email, or an account whose recomputed hash differs from the stored one)
and whatever the store, give the caller the same response: status 401,
the text of ErrLoginFailure, the same two headers and no cookie. -/
theorem classicSignin_failures_indistinguishable (deps : Deps) (env1 env2 : Env)
    (db1 db2 : DB) (r1 r2 : Request classicSigninPayload)
    (h1 : CredentialFailure deps env1 db1 r1) (h2 : CredentialFailure deps env2 db2 r2) :
    (classicSignin deps env1 db1 r1).w = (classicSignin deps env2 db2 r2).w ∧
    (classicSignin deps env1 db1 r1).w.status = StatusUnauthorized ∧
    (classicSignin deps env1 db1 r1).w.body = Payload.text (deps.ErrLoginFailure ++ "\n") ∧
    (classicSignin deps env1 db1 r1).w.cookies = [] := by
  have e1 := (classicSignin_reject deps env1 db1 r1 h1).1
  have e2 := (classicSignin_reject deps env2 db2 r2 h2).1
  rw [e1, e2]
  exact ⟨rfl, rfl, rfl, rfl⟩

theorem classicSignin_db (deps : Deps) (env : Env) (db : DB)
    (r : Request classicSigninPayload) :
    (classicSignin deps env db r).db = db ∨
    ∃ session : Session,
      (classicSignin deps env db r).db = { db with sessions := db.sessions ++ [session] } := by
  unfold classicSignin
  simp only [State.start, State.record]
  split
  · left; simp [HandleError]
  · split
    · left; simp [httpError]
    · split
      · left; simp [httpError]
      · left; simp [HandleError]
      · split
        · left; simp [httpError]
        · cases hc : env.faults.create with
          | some err => left; simp [CreateSession, hc, HandleError]
          | none =>
            right
            simp [CreateSession, hc, setSessionCookie, encode]

/-- C1, as amended: for a sign-in request with a non-empty email for which
the lookup selects an account and with a non-empty auth_key: if the hash
of the key under the stored salt and ServerKDFIteration is the stored
hash and the session record is created, the answer is 200 with a session
appended to the store for the owner of the account, whose key and expiry
are in the body and in the cookie, and the stored cipher_key_enc; if the
hash differs, the answer is the generic 401 and the store is unchanged. -/
theorem classicSignin_classic_account (deps : Deps) (env : Env) (db : DB)
    (r : Request classicSigninPayload) (params : classicSigninPayload) (account : Account)
    (hBody : r.body = Except.ok params)
    (hEmail : params.Email ≠ "") (hKey : params.AuthKey ≠ "")
    (hFind : env.faults.find = none)
    (hAccount : firstRow (fun a => a.Email == some params.Email) db.accounts = some account) :
    (deps.HashAuthKey params.AuthKey account.Salt account.ServerKDFIteration
        = account.AuthKeyHash →
      env.faults.create = none →
      (classicSignin deps env db r).w.status = StatusOK ∧
      ∃ session : Session,
        (classicSignin deps env db r).db.sessions = db.sessions ++ [session] ∧
        session.UserID = account.UserID ∧
        (classicSignin deps env db r).w.body = Payload.signin
          { Key := session.Key, ExpiresAt := session.ExpiresAt,
            CipherKeyEnc := account.CipherKeyEnc } ∧
        (classicSignin deps env db r).w.cookies =
          [{ Name := "id", Value := session.Key, Expires := session.ExpiresAt }]) ∧
    (deps.HashAuthKey params.AuthKey account.Salt account.ServerKDFIteration
        ≠ account.AuthKeyHash →
      (classicSignin deps env db r).w.status = StatusUnauthorized ∧
      (classicSignin deps env db r).w.body = Payload.text (deps.ErrLoginFailure ++ "\n") ∧
      (classicSignin deps env db r).w.cookies = [] ∧
      (classicSignin deps env db r).db = db) := by
  constructor
  · intro hh hc
    refine ⟨?_, ⟨Session.mk env.sessionKey account.UserID (env.now + deps.sessionLifetime),
      ?_, rfl, ?_, ?_⟩⟩ <;>
      simp [classicSignin, hBody, hEmail, hKey, hFind, First, hAccount, hh, hc, CreateSession,
        setSessionCookie, encode, setHeader, State.start, State.record, Response.new]
  · intro hne
    have h := classicSignin_reject deps env db r
      (CredentialFailure.wrongKey params account hBody hFind hAccount hne)
    rw [h.1]
    exact ⟨rfl, rfl, rfl, h.2⟩

/-- C1, counterexample: carol's stored hash is the hash of the empty key
under her salt and iteration count, so the empty key is her correct
derived key and her account is Classic; signing in with her email and
that key is answered 401 and no session is created. -/
theorem classicSignin_empty_correct_key_rejected :
    carolAccount.AuthKeyHash ≠ "" ∧
    firstRow (fun a => a.Email == some "carol@example.com") carolDB.accounts
      = some carolAccount ∧
    sampleDeps.HashAuthKey "" carolAccount.Salt carolAccount.ServerKDFIteration
      = carolAccount.AuthKeyHash ∧
    carolSignin.body = Except.ok { Email := "carol@example.com", AuthKey := "" } ∧
    (classicSignin sampleDeps sampleEnv carolDB carolSignin).w.status = StatusUnauthorized ∧
    (classicSignin sampleDeps sampleEnv carolDB carolSignin).db.sessions = [] := by
  refine ⟨by decide, by decide, by decide, rfl, by decide, by decide⟩

/-- C4: once classicMigrate has run without a storage error on the account
a sign-in email selects, a classicSignin with that email creates no
session and changes nothing in the store, for every submitted auth_key
whose hash under the empty salt and iteration 0 is not the empty string;
when its lookup meets no storage error the answer is the generic 401. -/
theorem classicSignin_after_migrate {β : Type} (deps : Deps) (envM envS : Env) (db : DB)
    (rM : Request β) (user : User) (account : Account)
    (r : Request classicSigninPayload) (params : classicSigninPayload)
    (hUser : rM.user = some user)
    (hOwn : firstRow (fun a => a.UserID == user.ID) db.accounts = some account)
    (hFindM : envM.faults.find = none) (hUpdateM : envM.faults.update = none)
    (hBody : r.body = Except.ok params)
    (hMail : firstRow (fun a => a.Email == some params.Email) db.accounts = some account)
    (hHash : deps.HashAuthKey params.AuthKey "" 0 ≠ "") :
    (classicSignin deps envS (classicMigrate deps envM db rM).db r).db
      = (classicMigrate deps envM db rM).db ∧
    (classicSignin deps envS (classicMigrate deps envM db rM).db r).w.cookies = [] ∧
    (classicSignin deps envS (classicMigrate deps envM db rM).db r).w.status ≠ StatusOK ∧
    (envS.faults.find = none →
      (classicSignin deps envS (classicMigrate deps envM db rM).db r).w.status
        = StatusUnauthorized ∧
      (classicSignin deps envS (classicMigrate deps envM db rM).db r).w.body
        = Payload.text (deps.ErrLoginFailure ++ "\n")) := by
  have hdb : (classicMigrate deps envM db rM).db =
      { db with accounts := updateRows account.ID migrateColumns db.accounts } := by
    simp [classicMigrate, hUser, hFindM, First, hOwn, hUpdateM, Update, State.start,
      State.record]
  have hrow : firstRow (fun a => a.Email == some params.Email)
      (classicMigrate deps envM db rM).db.accounts = some (migrateColumns account) := by
    rw [hdb]
    exact firstRow_updateRows_self (fun a => a.Email == some params.Email) migrateColumns
      account (fun a => rfl) (fun a => rfl) db.accounts hMail
  cases hf : envS.faults.find with
  | some err =>
    by_cases hg : params.Email = "" ∨ params.AuthKey = ""
    · simp [classicSignin, hBody, hg, httpError, setHeader, State.start, Response.new]
    · simp [classicSignin, hBody, hg, hf, First, HandleError, State.start, State.record,
        Response.new]
  | none =>
    have h := classicSignin_reject deps envS (classicMigrate deps envM db rM).db r
      (CredentialFailure.wrongKey params (migrateColumns account) hBody hf hrow
        (by simpa [migrateColumns] using hHash))
    rw [h.1]
    exact ⟨h.2, rfl, by simp, fun _ => ⟨rfl, rfl⟩⟩

/-- C9: classicSignin never changes the accounts (nor the notes); and
unless verification succeeds, that is unless the body decodes to a
non-empty email and a non-empty auth_key, the lookup finds an account
and the hash of the key under its salt and ServerKDFIteration equals its
stored hash, the store after the call is the store before it, no cookie
is set and CreateSession is not among the store accesses made. -/
theorem classicSignin_pure_verification (deps : Deps) (env : Env) (db : DB)
    (r : Request classicSigninPayload) :
    (classicSignin deps env db r).db.accounts = db.accounts ∧
    (classicSignin deps env db r).db.notes = db.notes ∧
    ((¬ ∃ (params : classicSigninPayload) (account : Account),
        r.body = Except.ok params ∧ params.Email ≠ "" ∧ params.AuthKey ≠ "" ∧
        First env.faults.find db (fun a => a.Email == some params.Email)
          = Query.found account ∧
        deps.HashAuthKey params.AuthKey account.Salt account.ServerKDFIteration
          = account.AuthKeyHash) →
      (classicSignin deps env db r).db = db ∧
      (classicSignin deps env db r).w.cookies = [] ∧
      ∀ userID : Int, Op.createSession userID ∉ (classicSignin deps env db r).ops) := by
  refine ⟨?_, ?_, ?_⟩
  · rcases classicSignin_db deps env db r with h | ⟨_, h⟩ <;> simp [h]
  · rcases classicSignin_db deps env db r with h | ⟨_, h⟩ <;> simp [h]
  · intro hnot
    cases hb : r.body with
    | error err => simp [classicSignin, hb, HandleError, State.start, Response.new]
    | ok params =>
      by_cases hg : params.Email = "" ∨ params.AuthKey = ""
      · simp [classicSignin, hb, hg, httpError, setHeader, State.start, Response.new]
      · cases hq : First env.faults.find db (fun a => a.Email == some params.Email) with
        | recordNotFound =>
          simp [classicSignin, hb, hg, hq, httpError, setHeader, State.start, State.record,
            Response.new]
        | failed err =>
          simp [classicSignin, hb, hg, hq, HandleError, State.start, State.record,
            Response.new]
        | found account =>
          by_cases hh : account.AuthKeyHash =
              deps.HashAuthKey params.AuthKey account.Salt account.ServerKDFIteration
          · exfalso
            apply hnot
            simp only [not_or] at hg
            exact ⟨params, account, hb, hg.1, hg.2, hq, hh.symm⟩
          · simp [classicSignin, hb, hg, hq, hh, httpError, setHeader, State.start,
              State.record, Response.new]

/-- C8, the failing case: alice signs in with her correct key while the
creation of the session record fails; the answer has status 400, not a
server-class status. No cookie is set and the store is unchanged. -/
theorem classicSignin_session_failure_is_bad_request :
    CreateSession sampleDeps createFails sampleDB aliceAccount.UserID
      = Except.error "connection refused" ∧
    (classicSignin sampleDeps createFails sampleDB aliceSignin).w.status = StatusBadRequest ∧
    (classicSignin sampleDeps createFails sampleDB aliceSignin).w.cookies = [] ∧
    (classicSignin sampleDeps createFails sampleDB aliceSignin).db = sampleDB := by
  refine ⟨rfl, by decide, by decide, by decide⟩

/-- Every failed session creation in classicSignin is answered 400 through
HandleError, with no cookie, no session key in the body and the store
unchanged. -/
theorem classicSignin_createSession_failure (deps : Deps) (env : Env) (db : DB)
    (r : Request classicSigninPayload) (params : classicSigninPayload) (account : Account)
    (err : String)
    (hBody : r.body = Except.ok params)
    (hEmail : params.Email ≠ "") (hKey : params.AuthKey ≠ "")
    (hFind : First env.faults.find db (fun a => a.Email == some params.Email)
      = Query.found account)
    (hHash : deps.HashAuthKey params.AuthKey account.Salt account.ServerKDFIteration
      = account.AuthKeyHash)
    (hCreate : env.faults.create = some err) :
    (classicSignin deps env db r).w.status = StatusBadRequest ∧
    (classicSignin deps env db r).w.body = Payload.text (deps.errorText StatusBadRequest) ∧
    (classicSignin deps env db r).w.cookies = [] ∧
    (classicSignin deps env db r).db = db := by
  simp [classicSignin, hBody, hEmail, hKey, hFind, hHash, hCreate, CreateSession, HandleError,
    State.start, State.record, Response.new]

/-- The other storage failures of this file are answered 500: a lookup
error in classicPresignin, classicSignin, classicMigrate, classicGetMe,
classicSetPassword and classicGetNotes, and an update error in
classicMigrate and classicSetPassword. -/
theorem storage_failures_answered_500 (deps : Deps) (env : Env) (db : DB) (err : String) :
    (∀ r : Request Unit, r.queryEmail ≠ "" → env.faults.find = some err →
      (classicPresignin deps env db r).w.status = StatusInternalServerError) ∧
    (∀ (r : Request classicSigninPayload) (params : classicSigninPayload),
      r.body = Except.ok params → params.Email ≠ "" → params.AuthKey ≠ "" →
      env.faults.find = some err →
      (classicSignin deps env db r).w.status = StatusInternalServerError ∧
      (classicSignin deps env db r).w.cookies = []) ∧
    (∀ (r : Request Unit) (user : User), r.user = some user →
      env.faults.find = some err →
      (classicMigrate deps env db r).w.status = StatusInternalServerError ∧
      (classicGetMe deps env db r).w.status = StatusInternalServerError ∧
      (classicGetNotes deps env db r).w.status = StatusInternalServerError) ∧
    (∀ (r : Request classicSetPasswordPayload) (user : User)
      (params : classicSetPasswordPayload),
      r.user = some user → r.body = Except.ok params → env.faults.find = some err →
      (classicSetPassword deps env db r).w.status = StatusInternalServerError) ∧
    (∀ (r : Request Unit) (user : User) (account : Account), r.user = some user →
      First env.faults.find db (fun a => a.UserID == user.ID) = Query.found account →
      env.faults.update = some err →
      (classicMigrate deps env db r).w.status = StatusInternalServerError) ∧
    (∀ (r : Request classicSetPasswordPayload) (user : User)
      (params : classicSetPasswordPayload) (account : Account) (hashed : String),
      r.user = some user → r.body = Except.ok params →
      First env.faults.find db (fun a => a.UserID == user.ID) = Query.found account →
      deps.GenerateFromPassword params.Password deps.DefaultCost env.entropy
        = Except.ok hashed →
      env.faults.update = some err →
      (classicSetPassword deps env db r).w.status = StatusInternalServerError) := by
  refine ⟨?_, ?_, ?_, ?_, ?_, ?_⟩
  · intro r he hf
    simp [classicPresignin, he, hf, First, HandleError, State.start, State.record]
  · intro r params hb he hk hf
    simp [classicSignin, hb, he, hk, hf, First, HandleError, State.start, State.record,
      Response.new]
  · intro r user hu hf
    simp [classicMigrate, classicGetMe, classicGetNotes, FindNotes, hu, hf, First, HandleError,
      State.start, State.record]
  · intro r user params hu hb hf
    simp [classicSetPassword, hu, hb, hf, First, HandleError, State.start, State.record]
  · intro r user account hu hq hup
    simp [classicMigrate, hu, hq, hup, Update, HandleError, State.start, State.record]
  · intro r user params account hashed hu hb hq hh hup
    simp [classicSetPassword, hu, hb, hq, hh, hup, Update, httpError, setHeader, State.start,
      State.record]

/-! ## classicSetPassword -/

theorem classicSetPassword_db (deps : Deps) (env : Env) (db : DB)
    (r : Request classicSetPasswordPayload) :
    (classicSetPassword deps env db r).db = db ∨
    ∃ (account : Account) (hashed : String),
      (classicSetPassword deps env db r).db =
        { db with accounts :=
            updateRows account.ID (fun a => { a with Password := some hashed }) db.accounts } := by
  unfold classicSetPassword
  simp only [State.start, State.record]
  split
  · left; simp [HandleError]
  · split
    · left; simp [HandleError]
    · split
      · left; simp [HandleError]
      · left; simp [HandleError]
      · split
        · left; simp [httpError]
        · rename_i account _ _ hashed _
          cases hup : env.faults.update with
          | some err => left; simp [Update, hup, httpError]
          | none => right; exact ⟨account, hashed, by simp [Update, hup]⟩

/-- C6: a classicSetPassword that meets no error (authenticated user with
an account, decodable body, bcrypt and the store succeed) answers 200 and
sets the password column of the account of the user to the bcrypt hash
of the submitted password, whatever that password is. Every row keeps its
salt, AuthKeyHash, CipherKeyEnc, both iteration counts and all other
columns, so it is in Legacy mode after the call exactly when it was
before; when the primary key of the account is not zero, rows with
another primary key are unchanged; sessions and notes are unchanged. -/
theorem classicSetPassword_frame (deps : Deps) (env : Env) (db : DB)
    (r : Request classicSetPasswordPayload) (user : User)
    (params : classicSetPasswordPayload) (account : Account) (hashed : String)
    (hUser : r.user = some user) (hBody : r.body = Except.ok params)
    (hAccount : firstRow (fun a => a.UserID == user.ID) db.accounts = some account)
    (hFind : env.faults.find = none) (hUpdate : env.faults.update = none)
    (hHashed : deps.GenerateFromPassword params.Password deps.DefaultCost env.entropy
      = Except.ok hashed) :
    (classicSetPassword deps env db r).w.status = StatusOK ∧
    (∃ updated : Account,
      firstRow (fun a => a.UserID == user.ID) (classicSetPassword deps env db r).db.accounts
        = some updated ∧
      updated.ID = account.ID ∧ updated.Password = some hashed) ∧
    List.Forall₂
      (fun a b : Account =>
        b.Salt = a.Salt ∧ b.AuthKeyHash = a.AuthKeyHash ∧ b.CipherKeyEnc = a.CipherKeyEnc ∧
        b.ClientKDFIteration = a.ClientKDFIteration ∧
        b.ServerKDFIteration = a.ServerKDFIteration ∧
        (b.AuthKeyHash = "" ↔ a.AuthKeyHash = "") ∧
        b.ID = a.ID ∧ b.UserID = a.UserID ∧ b.AccountID = a.AccountID ∧
        b.Nickname = a.Nickname ∧ b.Provider = a.Provider ∧ b.Email = a.Email ∧
        b.EmailVerified = a.EmailVerified ∧
        (a.ID = account.ID → b.Password = some hashed) ∧
        (account.ID ≠ 0 → a.ID ≠ account.ID → b = a))
      db.accounts (classicSetPassword deps env db r).db.accounts ∧
    (classicSetPassword deps env db r).db.sessions = db.sessions ∧
    (classicSetPassword deps env db r).db.notes = db.notes := by
  have hdb : (classicSetPassword deps env db r).db =
      { db with accounts :=
          updateRows account.ID (fun a => { a with Password := some hashed }) db.accounts } := by
    simp [classicSetPassword, hUser, hBody, hFind, First, hAccount, hHashed, hUpdate, Update,
      State.start, State.record]
  refine ⟨?_, ⟨{ account with Password := some hashed }, ?_, rfl, rfl⟩, ?_, ?_, ?_⟩
  · simp [classicSetPassword, hUser, hBody, hFind, First, hAccount, hHashed, hUpdate, Update,
      State.start, State.record]
  · rw [hdb]
    exact firstRow_updateRows_self (fun a => a.UserID == user.ID)
      (fun a => { a with Password := some hashed }) account
      (fun a => rfl) (fun a => rfl) db.accounts hAccount
  · rw [hdb]
    apply forall₂_updateRows
    intro a _
    by_cases hz : account.ID = 0
    · simp [hz]
    · by_cases ha : a.ID = account.ID <;> simp [ha, hz]
  · rw [hdb]
  · rw [hdb]

/-! ## All handlers -/

theorem classicPresignin_db {β : Type} (deps : Deps) (env : Env) (db : DB) (r : Request β) :
    (classicPresignin deps env db r).db = db := by
  unfold classicPresignin
  by_cases he : r.queryEmail = ""
  · simp [he, httpError, State.start]
  · simp only [he, if_false, State.start, State.record]
    split <;> simp [HandleError, encode]

theorem classicGetMe_db {β : Type} (deps : Deps) (env : Env) (db : DB) (r : Request β) :
    (classicGetMe deps env db r).db = db := by
  unfold classicGetMe
  simp only [State.start, State.record]
  split
  · simp [HandleError]
  · split <;> simp [HandleError, respondJSON]

theorem classicGetNotes_db {β : Type} (deps : Deps) (env : Env) (db : DB) (r : Request β) :
    (classicGetNotes deps env db r).db = db := by
  unfold classicGetNotes
  simp only [State.start, State.record]
  split
  · simp [HandleError]
  · split <;> simp [HandleError, respondJSON]

theorem classicSignin_accounts (deps : Deps) (env : Env) (db : DB)
    (r : Request classicSigninPayload) :
    (classicSignin deps env db r).db.accounts = db.accounts := by
  rcases classicSignin_db deps env db r with h | ⟨_, h⟩ <;> simp [h]

/-- C7: no step of any handler of this file takes an account out of Legacy
mode: rows keep their place and primary key, and a row whose AuthKeyHash
is empty before the step has it empty after. And, the primary keys of the
store being unique and none of them zero, a row that is Classic before a
step and Legacy after it was changed by classicMigrate serving the user
who owns that row. -/
theorem legacy_absorbing (deps : Deps) (env : Env) (db : DB) (s : Step) :
    List.Forall₂
      (fun a b : Account => b.ID = a.ID ∧ (a.AuthKeyHash = "" → b.AuthKeyHash = ""))
      db.accounts (step deps env db s).db.accounts ∧
    ((db.accounts.map Account.ID).Nodup → (∀ a ∈ db.accounts, a.ID ≠ 0) →
      List.Forall₂
        (fun a b : Account => a.AuthKeyHash ≠ "" → b.AuthKeyHash = "" →
          ∃ (r : Request Unit) (user : User),
            s = Step.migrate r ∧ r.user = some user ∧ a.UserID = user.ID)
        db.accounts (step deps env db s).db.accounts) := by
  have same : ∀ rows : List Account, rows = db.accounts →
      List.Forall₂
        (fun a b : Account => b.ID = a.ID ∧ (a.AuthKeyHash = "" → b.AuthKeyHash = ""))
        db.accounts rows ∧
      ((db.accounts.map Account.ID).Nodup → (∀ a ∈ db.accounts, a.ID ≠ 0) →
        List.Forall₂
          (fun a b : Account => a.AuthKeyHash ≠ "" → b.AuthKeyHash = "" →
            ∃ (r : Request Unit) (user : User),
              s = Step.migrate r ∧ r.user = some user ∧ a.UserID = user.ID)
          db.accounts rows) := by
    intro rows hrows
    subst hrows
    exact ⟨List.forall₂_same.mpr (fun a _ => ⟨rfl, id⟩),
      fun _ _ => List.forall₂_same.mpr (fun a _ h1 h2 => absurd h2 h1)⟩
  cases s with
  | presignin r => exact same _ (by simp [step, classicPresignin_db])
  | signin r => exact same _ (by simp [step, classicSignin_accounts])
  | getMe r => exact same _ (by simp [step, classicGetMe_db])
  | getNotes r => exact same _ (by simp [step, classicGetNotes_db])
  | setPassword r =>
    rcases classicSetPassword_db deps env db r with h | ⟨account, hashed, h⟩
    · exact same _ (by simp [step, h])
    · simp only [step, h]
      constructor
      · apply forall₂_updateRows
        intro a _
        by_cases ha : account.ID = 0 ∨ a.ID = account.ID <;> simp [ha]
      · intro _ _
        apply forall₂_updateRows
        intro a _ h1 h2
        by_cases ha : account.ID = 0 ∨ a.ID = account.ID <;> simp [ha] at h2 <;>
          exact absurd h2 h1
  | migrate r =>
    rcases classicMigrate_db deps env db r with h | ⟨user, account, hu, hrow, _, _, _, h⟩
    · exact same _ (by simp [step, h.1])
    · simp only [step, h]
      have hacc := firstRow_mem _ _ _ hrow
      constructor
      · apply forall₂_updateRows
        intro a _
        by_cases ha : account.ID = 0 ∨ a.ID = account.ID <;> simp [ha, migrateColumns]
      · intro hPK hKeys
        have hkey : account.ID ≠ 0 := hKeys account hacc.1
        apply forall₂_updateRows
        intro a hmem h1 h2
        by_cases ha : a.ID = account.ID
        · have := eq_of_ID_eq db.accounts hPK a account hmem hacc.1 ha
          subst this
          refine ⟨r, user, rfl, hu, ?_⟩
          simpa using hacc.2
        · simp [ha, hkey] at h2
          exact absurd h2 h1

/-! ## The results on the sample store -/

/-- Presignin for the email of bob, whose stored ClientKDFIteration is 5000. -/
theorem classicPresignin_cases_witness :
    bobPresignin.queryEmail ≠ "" ∧ sampleEnv.faults.find = none ∧
    firstRow (fun a => a.Email == some bobPresignin.queryEmail) sampleDB.accounts
      = some bobAccount ∧
    (classicPresignin sampleDeps sampleEnv sampleDB bobPresignin).w.status = StatusOK ∧
    (classicPresignin sampleDeps sampleEnv sampleDB bobPresignin).w.body =
      Payload.presignin { Iteration := 5000 } ∧
    (classicPresignin sampleDeps sampleEnv sampleDB bobPresignin).db = sampleDB :=
  ⟨by decide, rfl, by decide,
    ((classicPresignin_cases sampleDeps sampleEnv sampleDB bobPresignin).2.2.2.1
      bobAccount (by decide) (by decide)).1,
    ((classicPresignin_cases sampleDeps sampleEnv sampleDB bobPresignin).2.2.2.1
      bobAccount (by decide) (by decide)).2,
    (classicPresignin_cases sampleDeps sampleEnv sampleDB bobPresignin).2.2.2.2.2⟩

/-- Alice migrates: her account is Legacy afterwards and classicGetMe says so. -/
theorem classicMigrate_makes_legacy_witness :
    aliceRequest.user = some alice ∧
    firstRow (fun a => a.UserID == alice.ID) sampleDB.accounts = some aliceAccount ∧
    sampleEnv.faults.find = none ∧ sampleEnv.faults.update = none ∧
    (classicMigrate sampleDeps sampleEnv sampleDB aliceRequest).w.status = StatusOK ∧
    (∃ migrated : Account,
      firstRow (fun a => a.UserID == alice.ID)
        (classicMigrate sampleDeps sampleEnv sampleDB aliceRequest).db.accounts
        = some migrated ∧
      migrated.ID = aliceAccount.ID ∧ migrated.Salt = "" ∧ migrated.AuthKeyHash = "" ∧
      migrated.CipherKeyEnc = "" ∧ migrated.ClientKDFIteration = 0 ∧
      migrated.ServerKDFIteration = 0) ∧
    (∀ a ∈ (classicMigrate sampleDeps sampleEnv sampleDB aliceRequest).db.accounts,
      a.ID = aliceAccount.ID →
      a.Salt = "" ∧ a.AuthKeyHash = "" ∧ a.CipherKeyEnc = "" ∧
      a.ClientKDFIteration = 0 ∧ a.ServerKDFIteration = 0) ∧
    (∃ me : classicSession,
      (classicGetMe sampleDeps sampleEnv
        (classicMigrate sampleDeps sampleEnv sampleDB aliceRequest).db aliceRequest).w.status
        = StatusOK ∧
      (classicGetMe sampleDeps sampleEnv
        (classicMigrate sampleDeps sampleEnv sampleDB aliceRequest).db aliceRequest).w.body
        = Payload.me me ∧
      me.Legacy = true ∧ me.CipherKeyEnc = "") :=
  ⟨rfl, by decide, rfl, rfl,
    classicMigrate_makes_legacy sampleDeps sampleEnv sampleEnv sampleDB aliceRequest alice
      aliceAccount rfl (by decide) rfl rfl rfl⟩

/-- Alice migrates: the row of bob is untouched. -/
theorem classicMigrate_frame_witness :
    (sampleDB.accounts.map Account.ID).Nodup ∧ (∀ a ∈ sampleDB.accounts, a.ID ≠ 0) ∧
    aliceRequest.user = some alice ∧
    List.Forall₂ (fun a b : Account => a.UserID ≠ alice.ID → b = a)
      sampleDB.accounts (classicMigrate sampleDeps sampleEnv sampleDB aliceRequest).db.accounts ∧
    (classicMigrate sampleDeps sampleEnv sampleDB aliceRequest).db.sessions
      = sampleDB.sessions :=
  ⟨by decide, by decide, rfl,
    (classicMigrate_frame sampleDeps sampleEnv sampleDB aliceRequest).2.1 (by decide)
      (by decide) alice rfl,
    (classicMigrate_frame sampleDeps sampleEnv sampleDB aliceRequest).2.2.1⟩

/-- An unknown email and a known email with a wrong key get the same answer. -/
theorem classicSignin_failures_indistinguishable_witness :
    CredentialFailure sampleDeps sampleEnv sampleDB nobodySignin ∧
    CredentialFailure sampleDeps sampleEnv sampleDB aliceWrongSignin ∧
    (classicSignin sampleDeps sampleEnv sampleDB nobodySignin).w
      = (classicSignin sampleDeps sampleEnv sampleDB aliceWrongSignin).w ∧
    (classicSignin sampleDeps sampleEnv sampleDB nobodySignin).w.status
      = StatusUnauthorized ∧
    (classicSignin sampleDeps sampleEnv sampleDB nobodySignin).w.body
      = Payload.text (sampleDeps.ErrLoginFailure ++ "\n") ∧
    (classicSignin sampleDeps sampleEnv sampleDB nobodySignin).w.cookies = [] :=
  have h1 : CredentialFailure sampleDeps sampleEnv sampleDB nobodySignin :=
    CredentialFailure.noAccount { Email := "nobody@example.com", AuthKey := "k1" } rfl rfl
      (by decide)
  have h2 : CredentialFailure sampleDeps sampleEnv sampleDB aliceWrongSignin :=
    CredentialFailure.wrongKey { Email := "alice@example.com", AuthKey := "wrong" }
      aliceAccount rfl rfl (by decide) (by decide)
  ⟨h1, h2, classicSignin_failures_indistinguishable sampleDeps sampleEnv sampleEnv sampleDB
    sampleDB nobodySignin aliceWrongSignin h1 h2⟩

/-- Alice signs in with the key k1: the session sk is issued with her blob. -/
theorem classicSignin_classic_account_witness :
    aliceSignin.body = Except.ok { Email := "alice@example.com", AuthKey := "k1" } ∧
    firstRow (fun a => a.Email == some "alice@example.com") sampleDB.accounts
      = some aliceAccount ∧
    sampleDeps.HashAuthKey "k1" aliceAccount.Salt aliceAccount.ServerKDFIteration
      = aliceAccount.AuthKeyHash ∧
    sampleEnv.faults.find = none ∧ sampleEnv.faults.create = none ∧
    (classicSignin sampleDeps sampleEnv sampleDB aliceSignin).w.status = StatusOK ∧
    ∃ session : Session,
      (classicSignin sampleDeps sampleEnv sampleDB aliceSignin).db.sessions
        = sampleDB.sessions ++ [session] ∧
      session.UserID = aliceAccount.UserID ∧
      (classicSignin sampleDeps sampleEnv sampleDB aliceSignin).w.body = Payload.signin
        { Key := session.Key, ExpiresAt := session.ExpiresAt,
          CipherKeyEnc := aliceAccount.CipherKeyEnc } ∧
      (classicSignin sampleDeps sampleEnv sampleDB aliceSignin).w.cookies =
        [{ Name := "id", Value := session.Key, Expires := session.ExpiresAt }] :=
  ⟨rfl, by decide, by decide, rfl, rfl,
    (classicSignin_classic_account sampleDeps sampleEnv sampleDB aliceSignin
      { Email := "alice@example.com", AuthKey := "k1" } aliceAccount rfl (by decide)
      (by decide) rfl (by decide)).1 (by decide) rfl⟩

/-- Alice signs in with k1, migrates, and signs in with k1 again: 401. -/
theorem classicSignin_after_migrate_witness :
    (classicSignin sampleDeps sampleEnv sampleDB aliceSignin).w.status = StatusOK ∧
    aliceRequest.user = some alice ∧
    firstRow (fun a => a.UserID == alice.ID) sampleDB.accounts = some aliceAccount ∧
    firstRow (fun a => a.Email == some "alice@example.com") sampleDB.accounts
      = some aliceAccount ∧
    sampleDeps.HashAuthKey "k1" "" 0 ≠ "" ∧
    (classicSignin sampleDeps sampleEnv
      (classicMigrate sampleDeps sampleEnv sampleDB aliceRequest).db aliceSignin).db
      = (classicMigrate sampleDeps sampleEnv sampleDB aliceRequest).db ∧
    (classicSignin sampleDeps sampleEnv
      (classicMigrate sampleDeps sampleEnv sampleDB aliceRequest).db aliceSignin).w.cookies
      = [] ∧
    (classicSignin sampleDeps sampleEnv
      (classicMigrate sampleDeps sampleEnv sampleDB aliceRequest).db aliceSignin).w.status
      = StatusUnauthorized :=
  have h := classicSignin_after_migrate sampleDeps sampleEnv sampleEnv sampleDB aliceRequest
    alice aliceAccount aliceSignin { Email := "alice@example.com", AuthKey := "k1" }
    rfl (by decide) rfl rfl rfl (by decide) (by decide)
  ⟨by decide, rfl, by decide, by decide, by decide, h.1, h.2.1, (h.2.2.2 rfl).1⟩

/-- A sign-in with an unknown email leaves the store as it was. -/
theorem classicSignin_pure_verification_witness :
    (¬ ∃ (params : classicSigninPayload) (account : Account),
      nobodySignin.body = Except.ok params ∧ params.Email ≠ "" ∧ params.AuthKey ≠ "" ∧
      First sampleEnv.faults.find sampleDB (fun a => a.Email == some params.Email)
        = Query.found account ∧
      sampleDeps.HashAuthKey params.AuthKey account.Salt account.ServerKDFIteration
        = account.AuthKeyHash) ∧
    (classicSignin sampleDeps sampleEnv sampleDB nobodySignin).db = sampleDB ∧
    (classicSignin sampleDeps sampleEnv sampleDB nobodySignin).w.cookies = [] ∧
    ∀ userID : Int,
      Op.createSession userID ∉ (classicSignin sampleDeps sampleEnv sampleDB nobodySignin).ops :=
  have hnot : ¬ ∃ (params : classicSigninPayload) (account : Account),
      nobodySignin.body = Except.ok params ∧ params.Email ≠ "" ∧ params.AuthKey ≠ "" ∧
      First sampleEnv.faults.find sampleDB (fun a => a.Email == some params.Email)
        = Query.found account ∧
      sampleDeps.HashAuthKey params.AuthKey account.Salt account.ServerKDFIteration
        = account.AuthKeyHash := by
    rintro ⟨params, account, hb, _, _, hq, _⟩
    have hp : params = { Email := "nobody@example.com", AuthKey := "k1" } := by
      simp only [nobodySignin, Except.ok.injEq] at hb
      exact hb.symm
    subst hp
    have hnone : First sampleEnv.faults.find sampleDB
        (fun a => a.Email == some "nobody@example.com") = Query.recordNotFound := by decide
    rw [hnone] at hq
    cases hq
  ⟨hnot, (classicSignin_pure_verification sampleDeps sampleEnv sampleDB nobodySignin).2.2 hnot⟩

/-- Alice sets the empty password: only her password column changes. -/
theorem classicSetPassword_frame_witness :
    aliceSetPassword.user = some alice ∧
    aliceSetPassword.body = Except.ok { Password := "" } ∧
    firstRow (fun a => a.UserID == alice.ID) sampleDB.accounts = some aliceAccount ∧
    sampleEnv.faults.find = none ∧ sampleEnv.faults.update = none ∧
    sampleDeps.GenerateFromPassword "" sampleDeps.DefaultCost sampleEnv.entropy
      = Except.ok "bcrypt()" ∧
    aliceAccount.ID ≠ 0 ∧
    (classicSetPassword sampleDeps sampleEnv sampleDB aliceSetPassword).w.status = StatusOK ∧
    (∃ updated : Account,
      firstRow (fun a => a.UserID == alice.ID)
        (classicSetPassword sampleDeps sampleEnv sampleDB aliceSetPassword).db.accounts
        = some updated ∧
      updated.ID = aliceAccount.ID ∧ updated.Password = some "bcrypt()") ∧
    List.Forall₂
      (fun a b : Account =>
        b.Salt = a.Salt ∧ b.AuthKeyHash = a.AuthKeyHash ∧ b.CipherKeyEnc = a.CipherKeyEnc ∧
        b.ClientKDFIteration = a.ClientKDFIteration ∧
        b.ServerKDFIteration = a.ServerKDFIteration ∧
        (b.AuthKeyHash = "" ↔ a.AuthKeyHash = "") ∧
        b.ID = a.ID ∧ b.UserID = a.UserID ∧ b.AccountID = a.AccountID ∧
        b.Nickname = a.Nickname ∧ b.Provider = a.Provider ∧ b.Email = a.Email ∧
        b.EmailVerified = a.EmailVerified ∧
        (a.ID = aliceAccount.ID → b.Password = some "bcrypt()") ∧
        (aliceAccount.ID ≠ 0 → a.ID ≠ aliceAccount.ID → b = a))
      sampleDB.accounts
      (classicSetPassword sampleDeps sampleEnv sampleDB aliceSetPassword).db.accounts ∧
    (classicSetPassword sampleDeps sampleEnv sampleDB aliceSetPassword).db.sessions
      = sampleDB.sessions :=
  have h := classicSetPassword_frame sampleDeps sampleEnv sampleDB aliceSetPassword alice
    { Password := "" } aliceAccount "bcrypt()" rfl rfl (by decide) rfl rfl rfl
  ⟨rfl, rfl, by decide, rfl, rfl, rfl, by decide, h.1, h.2.1, h.2.2.1, h.2.2.2.1⟩

/-- Alice migrates on the sample store, whose primary keys are unique and not zero. -/
theorem legacy_absorbing_witness :
    (sampleDB.accounts.map Account.ID).Nodup ∧ (∀ a ∈ sampleDB.accounts, a.ID ≠ 0) ∧
    List.Forall₂
      (fun a b : Account => b.ID = a.ID ∧ (a.AuthKeyHash = "" → b.AuthKeyHash = ""))
      sampleDB.accounts
      (step sampleDeps sampleEnv sampleDB (Step.migrate aliceRequest)).db.accounts ∧
    List.Forall₂
      (fun a b : Account => a.AuthKeyHash ≠ "" → b.AuthKeyHash = "" →
        ∃ (r : Request Unit) (user : User),
          Step.migrate aliceRequest = Step.migrate r ∧ r.user = some user ∧
          a.UserID = user.ID)
      sampleDB.accounts
      (step sampleDeps sampleEnv sampleDB (Step.migrate aliceRequest)).db.accounts :=
  ⟨by decide, by decide,
    (legacy_absorbing sampleDeps sampleEnv sampleDB (Step.migrate aliceRequest)).1,
    (legacy_absorbing sampleDeps sampleEnv sampleDB (Step.migrate aliceRequest)).2 (by decide)
      (by decide)⟩

end Handlers
